import Mathlib

/-!
Verification of the quickshare repository's natural-language specification
against its code.

Python strings are modelled as `List Char` (so that all operations reduce in
the kernel), byte strings as `List Nat`, SQLite rows as structures, and the
filesystem / database as explicit function parameters.  Code that lives in the
`quickshare` package (transfer/control/discovery/fileutils modules), which the
repository imports but does not contain, is modelled from the spec and marked
as such in its doc comment.
-/

deriving instance DecidableEq for Except

namespace QS

/-- Python `str` modelled as a list of characters. -/
abbrev Str := List Char

/-! ## Transfer engine chunking (spec §4.4, modelled)

The `quickshare.transfer` module is imported by `scripts/ui.py` and
`scripts/run_receiver.py` but is not part of the repository, so the
send/receive chunk pipeline is modelled from spec §4.4. -/

/-- Modelled from the spec: `Sender.send` "reads the source file sequentially
in `chunk_size` pieces" (§4.4); `quickshare.transfer.Sender` is not in the
repository.  Splits a byte list into consecutive pieces of length `C`
(the final piece may be shorter).  For `C = 0` no chunk is produced, matching
a zero-length read terminating the read loop. -/
def chunksOf (C : Nat) (l : List Nat) : List (List Nat) :=
  if h : l = [] then []
  else if hC : C = 0 then []
  else l.take C :: chunksOf C (l.drop C)
termination_by l.length
decreasing_by
  have hl := List.length_pos.mpr h
  simp [List.length_drop]
  omega

/-- Modelled from the spec: each chunk travels as "a sequence index plus a
byte payload" (§3), written "with its sequence index onto the connection"
(§4.4); `quickshare.transfer.Sender` is not in the repository. -/
def senderFrames (C : Nat) (content : List Nat) : List (Nat × List Nat) :=
  (chunksOf C content).enum

/-- Modelled from the spec: the receiver "reads chunks in order from the
connection, appending each to the destination file" (§4.4);
`quickshare.transfer.Receiver` is not in the repository. -/
def receiverAssemble (frames : List (Nat × List Nat)) : List Nat :=
  (frames.map Prod.snd).flatten

/-- Modelled from the spec: after the declared number of chunks the receiver
"computes a content digest (SHA-256 class strength) over the assembled file"
(§4.4).  The digest algorithm itself is abstracted as a function parameter. -/
def receiverReport (digest : List Nat → Str) (frames : List (Nat × List Nat)) :
    List Nat × Str :=
  (receiverAssemble frames, digest (receiverAssemble frames))

theorem chunksOf_flatten (C : Nat) (hC : 0 < C) (l : List Nat) :
    (chunksOf C l).flatten = l := by
  induction l using chunksOf.induct C with
  | case1 => simp [chunksOf]
  | case2 => omega
  | case3 l h hc ih =>
    rw [chunksOf]
    simp only [h, hc, dite_false, reduceDIte, List.flatten_cons]
    rw [ih]
    exact List.take_append_drop C l

/-! ## `/send` background worker (`scripts/ui.py`, `_bg_send`) -/

/-- One row of the `transfers` SQLite table (`scripts/ui.py`, `init_db`),
restricted to the columns `_bg_send` touches. -/
structure TransferRow where
  bytes_sent : Int
  total_bytes : Int
  completed : Bool
  error : Option Str
  started_at : Option Str
  finished_at : Option Str
deriving DecidableEq

/-- The row `_bg_send` INSERTs for its tid before calling `Sender.send`
(`scripts/ui.py` line 1882): bytes 0, total `s.total_size`, not completed,
no error, started timestamp, no finish timestamp. -/
def init_row (totalSize : Int) (started : Str) : TransferRow :=
  { bytes_sent := 0
    total_bytes := totalSize
    completed := false
    error := none
    started_at := some started
    finished_at := none }

/-- The terminal UPDATE `_bg_send` performs on its row: on normal return of
`Sender.send` it sets `completed = 1` and `finished_at` (line 1927); if
`Sender.send` raised it sets `error` to the exception text and `finished_at`
(line 1938).  The outcome of `Sender.send` is passed in as an `Except`. -/
def bg_send_finish (sendResult : Except Str Unit) (row : TransferRow)
    (finished : Str) : TransferRow :=
  match sendResult with
  | Except.ok _ => { row with completed := true, finished_at := some finished }
  | Except.error e => { row with error := some e, finished_at := some finished }

/-- The whole `_bg_send` effect on the transfers row for its tid, from row
creation to termination. -/
def bg_send (sendResult : Except Str Unit) (totalSize : Int)
    (started finished : Str) : TransferRow :=
  bg_send_finish sendResult (init_row totalSize started) finished

/-! ## Receiver lifecycle state (`scripts/ui.py`, `RECV_STATE`) -/

/-- `RECV_STATE` (`scripts/ui.py` line 113): the module-level dict holding the
currently running `ControlServer` and `DiscoveryAnnouncer`, or `None`.  The
handles are opaque to the routes, modelled as `Nat` identifiers. -/
structure RecvState where
  server : Option Nat
  announcer : Option Nat
deriving DecidableEq

/-- Result of the `/start-recv` route: the new `RECV_STATE` plus whether a new
`ControlServer` and a new `DiscoveryAnnouncer` were constructed. -/
structure StartRecvResult where
  state : RecvState
  created_server : Bool
  created_announcer : Bool
deriving DecidableEq

/-- The `/start-recv` route (`scripts/ui.py` lines 1660-1772): if
`RECV_STATE['server']` is truthy it redirects immediately, constructing
nothing; otherwise it constructs a `ControlServer` and a `DiscoveryAnnouncer`
and stores both in `RECV_STATE`. -/
def start_recv (st : RecvState) (newServer newAnnouncer : Nat) : StartRecvResult :=
  if st.server.isSome then
    { state := st, created_server := false, created_announcer := false }
  else
    { state := { server := some newServer, announcer := some newAnnouncer }
      created_server := true
      created_announcer := true }

/-- The `/stop-recv` route (`scripts/ui.py` lines 1826-1840).  Each of
`announcer.stop()` and `server.stop()` is called only if the corresponding
entry is non-`None`, inside `try/except Exception: pass`, so whatever the
underlying `stop()` does (passed in as an `Except` outcome) is swallowed;
afterwards both entries are unconditionally set to `None` and the route
returns normally. -/
def stop_recv (st : RecvState) (annOutcome srvOutcome : Except Str Unit) :
    Except Str RecvState :=
  let _swallowedAnn : Unit := if st.announcer.isSome then
    (match annOutcome with | Except.ok _ => () | Except.error _ => ()) else ()
  let _swallowedSrv : Unit := if st.server.isSome then
    (match srvOutcome with | Except.ok _ => () | Except.error _ => ()) else ()
  Except.ok { server := none, announcer := none }

/-! ## Progress callback (`scripts/ui.py`, `_cb` inside `_bg_send`) -/

/-- The `_cb` progress callback (`scripts/ui.py` lines 1891-1919) as a fold:
`bytes_sent_local += b` on each invocation, then the new counter value is
emitted in the `progress` event.  `cbEmits acc bs` is the list of emitted
`bytes_sent` values, in invocation order, starting from counter `acc`. -/
def cbEmits : Int → List Int → List Int
  | _, [] => []
  | acc, b :: bs => (acc + b) :: cbEmits (acc + b) bs

/-- The per-chunk byte counts the sender reports: `progress_callback(index,
bytes_in_chunk)` is invoked once per chunk, in chunk order (spec §4.4, §5;
`quickshare.transfer.Sender` is not in the repository). -/
def chunkSizes (C : Nat) (content : List Nat) : List Int :=
  (chunksOf C content).map (fun c => (c.length : Int))

/-- The sequence of `bytes_sent` values `_cb` emits over one send session
(`bytes_sent_local` starts at 0, line 1889). -/
def sessionEmits (C : Nat) (content : List Nat) : List Int :=
  cbEmits 0 (chunkSizes C content)

theorem cbEmits_length (bs : List Int) : ∀ acc : Int, (cbEmits acc bs).length = bs.length := by
  induction bs with
  | nil => intro acc; rfl
  | cons b bs ih => intro acc; simp [cbEmits, ih]

theorem cbEmits_getD (bs : List Int) : ∀ (acc : Int) (i : Nat), i < bs.length →
    (cbEmits acc bs).getD i 0 = acc + (bs.take (i + 1)).sum := by
  induction bs with
  | nil => intro acc i h; simp at h
  | cons b bs ih =>
    intro acc i h
    cases i with
    | zero => simp [cbEmits]
    | succ n =>
      simp only [cbEmits, List.getD_cons_succ, List.take_succ_cons, List.sum_cons]
      rw [ih (acc + b) n (by simpa using h)]
      ring

/-! ## POSIX path model

Paths are modelled as lists of segments relative to the filesystem root.
Python's `os.path.join` / `os.path.abspath` (lexical, POSIX) are modelled at
the segment level, with a rendering back to characters for the one place the
source compares path *strings* (`target.startswith(cwd)` in `quickshare.py`). -/

/-- Python `s.split('/')` on a character-list string. -/
def splitSlash : Str → List Str
  | [] => [[]]
  | c :: cs =>
    if c = '/' then [] :: splitSlash cs
    else
      match splitSlash cs with
      | [] => [[c]]
      | g :: gs => (c :: g) :: gs

/-- Lexical normalisation of an absolute path's segments, as
`os.path.normpath` does after `os.path.abspath` joins with the cwd: empty
segments and `.` are dropped, `..` removes the preceding segment (and is a
no-op at the root). -/
def normSegs (segs : List Str) : List Str :=
  segs.foldl
    (fun acc s =>
      if s = [] ∨ s = ['.'] then acc
      else if s = ['.', '.'] then acc.dropLast
      else acc ++ [s])
    []

/-- `os.path.join(base, name)` for an absolute `base` given as segments:
if `name` begins with `'/'` the base is discarded, otherwise the segments of
`name` are appended. -/
def pyJoin (base : List Str) (name : Str) : List Str :=
  if name.head? = some '/' then splitSlash name else base ++ splitSlash name

/-- Render absolute-path segments back to the POSIX string
`os.path.abspath` produces: `'/'`-separated with a leading `'/'`. -/
def renderAbs (segs : List Str) : Str :=
  if segs = [] then ['/'] else segs.foldl (fun acc s => acc ++ '/' :: s) []

/-! ## Receive handler destination path (`scripts/run_receiver.py`, `handler`) -/

/-- The destination path `handler` computes
(`scripts/run_receiver.py` line 13):
`os.path.abspath(os.path.join('received', offer['filename']))`, resolved
against the current working directory `cwd`. -/
def handler_save_path (cwd : List Str) (filename : Str) : List Str :=
  normSegs (pyJoin (cwd ++ ["received".data]) filename)

/-! ## `/download` request validation (`src/quickshare.py`, `do_POST`) -/

/-- The resolved target of one requested name (`quickshare.py` line 204):
`os.path.abspath(os.path.join(cwd, fn))` (the `urllib.parse.unquote` step is
prior to this model; `fn` is the already-unquoted name). -/
def downloadTarget (cwd : List Str) (fn : Str) : List Str :=
  normSegs (pyJoin cwd fn)

/-- The validation filter of `do_POST` on `/download` (`quickshare.py` lines
199-206): a requested name is kept exactly when the rendered target string
starts with the rendered cwd string and the target is a regular file.  The
filesystem's set of regular files is the parameter `isFile`. -/
def validFiles (isFile : List Str → Bool) (cwd : List Str) (files : List Str) :
    List (List Str × Str) :=
  files.filterMap (fun fn =>
    let target := downloadTarget cwd fn
    if (renderAbs cwd).isPrefixOf (renderAbs target) && isFile target then
      some (target, fn)
    else none)

/-- A path is inside a directory when the directory's segments are a prefix
of the path's segments. -/
abbrev insideDir (dir p : List Str) : Prop := dir <+: p

/-! ## Upload filename sanitizer (`src/quickshare.py`, `sanitize`) -/

/-- Python `str.strip()` (whitespace from both ends). -/
def pyStrip (s : Str) : Str :=
  ((s.dropWhile Char.isWhitespace).reverse.dropWhile Char.isWhitespace).reverse

/-- The characters `sanitize` keeps (`quickshare.py` line 295):
`ch.isalnum() or ch in (' ', '.', '-', '_')` (ASCII alphanumerics; Python's
`isalnum` extends this to other Unicode categories, which no claim needs). -/
def allowedChar (c : Char) : Bool :=
  c.isAlphanum || c = ' ' || c = '.' || c = '-' || c = '_'

/-- `sanitize` (`quickshare.py` lines 287-302): strip whitespace, drop leading
dots ("to avoid hidden files like .env"), replace every disallowed character
by `'_'`, strip again, and fall back to `"uploaded_file"` if empty. -/
def sanitize (name : Str) : Str :=
  let n1 := pyStrip name
  let n2 := n1.dropWhile (fun c => c = '.')
  let safe := n2.map (fun ch => if allowedChar ch then ch else '_')
  let out := pyStrip safe
  if out = [] then "uploaded_file".data else out

/-! ## Offer decoding in the receive handlers
(`scripts/ui.py` `make_handler`, `scripts/run_receiver.py` `handler`) -/

/-- An incoming transfer offer as the handlers see it: a dict that may or may
not carry each field. -/
structure Offer where
  filename : Option Str
  total_chunks : Option Int
  chunk_size : Option Int
deriving DecidableEq

/-- The offer-decoding step of `make_handler` (`scripts/ui.py` lines
1674-1677): `offer.get('filename', 'received')`,
`int(offer.get('total_chunks', 1))`, `int(offer.get('chunk_size', 1024*1024))`.
The result is wrapped in `Except` to expose that this step has no error
path for a missing field. -/
def decode_offer_ui (o : Offer) : Except Str (Str × Int × Int) :=
  let filename := match o.filename with
    | some f => f
    | none => "received".data
  let total_chunks := match o.total_chunks with
    | some n => n
    | none => 1
  let chunk_size := match o.chunk_size with
    | some n => n
    | none => 1024 * 1024
  Except.ok (filename, total_chunks, chunk_size)

/-- The offer-decoding step of `handler` (`scripts/run_receiver.py` lines
11-15): identical, with default filename `'received_file'`. -/
def decode_offer_rr (o : Offer) : Except Str (Str × Int × Int) :=
  let filename := match o.filename with
    | some f => f
    | none => "received_file".data
  let total_chunks := match o.total_chunks with
    | some n => n
    | none => 1
  let chunk_size := match o.chunk_size with
    | some n => n
    | none => 1024 * 1024
  Except.ok (filename, total_chunks, chunk_size)

/-! ## `/verify` route (`scripts/ui.py`, `verify`) -/

/-- The columns of a `transfers` row that `/verify` reads
(`scripts/ui.py` line 2105). -/
structure VRow where
  save_path : Option Str
  sha256 : Option Str
deriving DecidableEq

/-- The observable outcome of the `/verify` route. -/
inductive VerifyResult where
  | badRequest : VerifyResult
  | notFound : VerifyResult
  | fileNotFound : VerifyResult
  | okResp : Option Str → Str → Bool → VerifyResult
deriving DecidableEq

/-- HTTP status of each `/verify` outcome (`scripts/ui.py` lines 2102, 2108,
2113, 2117). -/
def statusCode : VerifyResult → Nat
  | VerifyResult.badRequest => 400
  | VerifyResult.notFound => 404
  | VerifyResult.fileNotFound => 404
  | VerifyResult.okResp _ _ _ => 200

/-- The `/verify` route (`scripts/ui.py` lines 2098-2119).  `tid` is
`request.form.get('tid')` (absent → `none`; the code's `if not tid` also
rejects the empty string).  `db` is the `transfers` table keyed by tid, `fs`
maps an existing regular file's path to its byte content, and `digest` models
`sha256_file` (`quickshare.fileutils`, not in the repository) as an abstract
content digest. -/
def verify (tid : Option Str) (db : Str → Option VRow)
    (fs : Str → Option (List Nat)) (digest : List Nat → Str) : VerifyResult :=
  match tid with
  | none => VerifyResult.badRequest
  | some t =>
    if t = [] then VerifyResult.badRequest
    else
      match db t with
      | none => VerifyResult.notFound
      | some row =>
        match row.save_path with
        | none => VerifyResult.fileNotFound
        | some p =>
          if p = [] then VerifyResult.fileNotFound
          else
            match fs p with
            | none => VerifyResult.fileNotFound
            | some content =>
              let actual := digest content
              let okFlag := match row.sha256 with
                | none => false
                | some recorded => if recorded = [] then false else decide (recorded = actual)
              VerifyResult.okResp row.sha256 actual okFlag

/-! ## Concrete instances used by witnesses and counterexamples -/

/-- A concrete digest function for witnesses: decimal digits of the byte sum. -/
def digestW (bs : List Nat) : Str := Nat.toDigits 10 bs.sum

/-- Concrete filesystem for the `/download` analysis: exactly one regular
file, `/srv/share-secret/f` — a sibling of the serving directory whose name
extends the serving directory's name. -/
def isFileW : List Str → Bool :=
  fun p => decide (p = ["srv".data, "share-secret".data, "f".data])

/-- Concrete serving directory `/srv/share` for the `/download` analysis. -/
def cwdW : List Str := ["srv".data, "share".data]

/-- Concrete `/download` request body: one name escaping the serving
directory into its sibling. -/
def filesW : List Str := [("../share-secret/f").data]

/-- The resolved target of the request in `filesW`. -/
def targetW : List Str := ["srv".data, "share-secret".data, "f".data]

/-! ## Claims -/

/-- Claim C1 (spec-modelled): for any file content and any positive chunk
size `C`, sending the file chunk-by-chunk and receiving it through the
receiver yields byte-identical output, and the digest the receiver reports
equals the digest of the original input. -/
theorem round_trip (content : List Nat) (C : Nat) (digest : List Nat → Str)
    (hC : 0 < C) :
    (receiverReport digest (senderFrames C content)).1 = content ∧
    (receiverReport digest (senderFrames C content)).2 = digest content := by
  have h1 : receiverAssemble (senderFrames C content) = content := by
    unfold receiverAssemble senderFrames
    rw [List.enum_map_snd]
    exact chunksOf_flatten C hC content
  exact ⟨h1, by rw [receiverReport, h1]⟩

/-- Witness for C1 at content `[1,2,3,4,5]`, chunk size 2. -/
theorem round_trip_witness :
    0 < 2 ∧
    ((receiverReport digestW (senderFrames 2 [1, 2, 3, 4, 5])).1 = [1, 2, 3, 4, 5] ∧
     (receiverReport digestW (senderFrames 2 [1, 2, 3, 4, 5])).2 = digestW [1, 2, 3, 4, 5]) :=
  ⟨by decide, round_trip [1, 2, 3, 4, 5] 2 digestW (by decide)⟩

/-- Claim C2: once `_bg_send` has created the transfers row for its tid, the
operation terminates with that row marked either `completed = 1` with a
finish timestamp (when `Sender.send` returns normally) or with `error` set to
the exception text and a finish timestamp (when `Sender.send` raises);
exactly one terminal outcome is observed. -/
theorem bg_send_terminal (r : Except Str Unit) (t : Int) (st fin : Str) :
    (bg_send r t st fin).finished_at = some fin ∧
    ((∃ u, r = Except.ok u ∧ (bg_send r t st fin).completed = true ∧
        (bg_send r t st fin).error = none) ∨
     (∃ e, r = Except.error e ∧ (bg_send r t st fin).completed = false ∧
        (bg_send r t st fin).error = some e)) := by
  cases r with
  | ok u => exact ⟨rfl, Or.inl ⟨u, rfl, rfl, rfl⟩⟩
  | error e => exact ⟨rfl, Or.inr ⟨e, rfl, rfl, rfl⟩⟩

/-- Claim C3, counterexample to the claim as stated: an offer lacking all of
`filename`, `total_chunks` and `chunk_size` does not produce a decode error —
both receive handlers decode it successfully with substitute defaults. -/
theorem offer_missing_defaults_cx :
    decode_offer_ui { filename := none, total_chunks := none, chunk_size := none } =
      Except.ok ("received".data, 1, 1048576) ∧
    decode_offer_rr { filename := none, total_chunks := none, chunk_size := none } =
      Except.ok ("received_file".data, 1, 1048576) := by decide

/-- Claim C3 as amended: decoding an offer never fails on a missing field;
each missing field is silently replaced by its default (`'received'` in
`scripts/ui.py`, `'received_file'` in `scripts/run_receiver.py`, 1 chunk,
chunk size 1048576). -/
theorem offer_decode_defaults (o : Offer) :
    decode_offer_ui o =
      Except.ok (o.filename.getD "received".data, o.total_chunks.getD 1,
        o.chunk_size.getD 1048576) ∧
    decode_offer_rr o =
      Except.ok (o.filename.getD "received_file".data, o.total_chunks.getD 1,
        o.chunk_size.getD 1048576) := by
  obtain ⟨f, tc, cs⟩ := o
  cases f <;> cases tc <;> cases cs <;>
    simp [decode_offer_ui, decode_offer_rr, Option.getD]

/-- Claim C4: contrary to the comment in `scripts/run_receiver.py` ("Use
absolute path to ensure Receiver writes into the intended directory"), an
offer-supplied filename containing a `..` segment directs the receiver
outside the `received` directory: with cwd `/home/user`, filename
`../evil.txt` resolves to `/home/user/evil.txt`, which is not inside
`/home/user/received`. -/
theorem handler_save_path_escape :
    handler_save_path ["home".data, "user".data] ("../evil.txt").data =
      ["home".data, "user".data, "evil.txt".data] ∧
    ¬ insideDir ["home".data, "user".data, "received".data]
      (handler_save_path ["home".data, "user".data] ("../evil.txt").data) := by
  decide

/-- Claim C5, counterexample to the claim as stated: with serving directory
`/srv/share` and a sibling regular file `/srv/share-secret/f`, the request
`../share-secret/f` passes the `startswith` validation and is served, yet its
resolved path is not inside the serving directory. -/
theorem download_outside_served_cx :
    validFiles isFileW cwdW filesW = [(targetW, ("../share-secret/f").data)] ∧
    ¬ insideDir cwdW targetW := by decide

/-- Claim C5 as amended: every file served by `/download` is a regular file
whose resolved absolute path *string* starts with the serving directory's
path string (which admits sibling directories whose names extend the serving
directory's name, as the counterexample shows). -/
theorem download_validFiles_spec (isFile : List Str → Bool) (cwd : List Str)
    (files : List Str) :
    ∀ tf ∈ validFiles isFile cwd files,
      isFile tf.1 = true ∧
      (renderAbs cwd).isPrefixOf (renderAbs tf.1) = true := by
  intro tf htf
  simp only [validFiles, List.mem_filterMap] at htf
  obtain ⟨fn, _, hif⟩ := htf
  split at hif
  · next hcond =>
    obtain ⟨h1, h2⟩ := Bool.and_eq_true_iff.mp hcond
    cases hif
    exact ⟨h2, h1⟩
  · exact absurd hif (by simp)

/-- Witness for C5 as amended, at the concrete request of the
counterexample. -/
theorem download_validFiles_spec_witness :
    isFileW targetW = true ∧
    (renderAbs cwdW).isPrefixOf (renderAbs targetW) = true :=
  download_validFiles_spec isFileW cwdW filesW
    (targetW, ("../share-secret/f").data) (by decide)

/-- Claim C6: when `RECV_STATE` already holds a server, a further
`/start-recv` request constructs no new `ControlServer` or
`DiscoveryAnnouncer` and leaves `RECV_STATE` unchanged. -/
theorem start_recv_guard (st : RecvState) (ns na : Nat)
    (h : st.server.isSome = true) :
    start_recv st ns na =
      { state := st, created_server := false, created_announcer := false } := by
  simp [start_recv, h]

/-- Witness for C6 at a state already holding server 5 and announcer 7. -/
theorem start_recv_guard_witness :
    (RecvState.mk (some 5) (some 7)).server.isSome = true ∧
    start_recv ⟨some 5, some 7⟩ 9 10 =
      { state := ⟨some 5, some 7⟩, created_server := false,
        created_announcer := false } :=
  ⟨by decide, start_recv_guard ⟨some 5, some 7⟩ 9 10 (by decide)⟩

/-- Claim C7: `/stop-recv` never raises (whatever the underlying `stop()`
calls do and whether or not anything was started), always leaves both
`RECV_STATE` entries `None`, and stop composed with stop equals stop. -/
theorem stop_recv_spec (st st₂ : RecvState) (a s a₂ s₂ : Except Str Unit) :
    stop_recv st a s = Except.ok { server := none, announcer := none } ∧
    (stop_recv st a s = Except.ok st₂ →
      st₂.server = none ∧ st₂.announcer = none ∧
      stop_recv st₂ a₂ s₂ = stop_recv st a₂ s₂) := by
  refine ⟨rfl, fun h => ?_⟩
  have h3 : Except.ok (ε := Str)
      ({ server := none, announcer := none } : RecvState) = Except.ok st₂ := h
  have h2 := (Except.ok.inj h3).symm
  subst h2
  exact ⟨rfl, rfl, rfl⟩

/-- Witness for C7: stopping twice from a running state equals stopping
once, even when the underlying announcer `stop()` raises. -/
theorem stop_recv_spec_witness :
    stop_recv { server := none, announcer := none } (Except.ok ()) (Except.ok ()) =
      stop_recv (RecvState.mk (some 1) (some 2)) (Except.ok ()) (Except.ok ()) :=
  ((stop_recv_spec ⟨some 1, some 2⟩ ⟨none, none⟩ (Except.error "x".data)
    (Except.ok ()) (Except.ok ()) (Except.ok ())).2 rfl).2.2

/-- Claim C8 (sender side spec-modelled): the progress callback is invoked
once per chunk in chunk order, the `bytes_sent` value emitted after the n-th
invocation equals the sum of the first n reported chunk sizes, and for
non-negative chunk sizes the successive emitted values never decrease. -/
theorem progress_emits_spec (C : Nat) (content : List Nat) :
    (sessionEmits C content).length = (chunksOf C content).length ∧
    (∀ i, i < (chunkSizes C content).length →
      (sessionEmits C content).getD i 0 = ((chunkSizes C content).take (i + 1)).sum) ∧
    (∀ sizes : List Int, (∀ b ∈ sizes, 0 ≤ b) → ∀ i, i + 1 < sizes.length →
      (cbEmits 0 sizes).getD i 0 ≤ (cbEmits 0 sizes).getD (i + 1) 0) := by
  refine ⟨?_, fun i h => ?_, fun sizes hnn i h => ?_⟩
  · rw [sessionEmits, cbEmits_length, chunkSizes, List.length_map]
  · rw [sessionEmits, cbEmits_getD _ 0 i h, zero_add]
  · have hi : i < sizes.length := by omega
    rw [cbEmits_getD sizes 0 i hi, cbEmits_getD sizes 0 (i + 1) h, zero_add, zero_add,
      List.sum_take_succ sizes (i + 1) h]
    have hb : 0 ≤ sizes[i + 1] := hnn _ (List.getElem_mem h)
    linarith

/-- Witness for C8 at content `[1,2,3,4,5]`, chunk size 2. -/
theorem progress_emits_spec_witness :
    (sessionEmits 2 [1, 2, 3, 4, 5]).getD 1 0 =
      ((chunkSizes 2 [1, 2, 3, 4, 5]).take 2).sum ∧
    (cbEmits 0 [2, 2, 1]).getD 0 0 ≤ (cbEmits 0 [2, 2, 1]).getD 1 0 :=
  ⟨(progress_emits_spec 2 [1, 2, 3, 4, 5]).2.1 1 (by simp [chunkSizes, chunksOf]),
   (progress_emits_spec 2 [1, 2, 3, 4, 5]).2.2 [2, 2, 1] (by decide) 0 (by decide)⟩

/-- Claim C10: contrary to the comment in `quickshare.py` ("remove leading
dots to avoid hidden files like .env"), `sanitize` can return a dot-prefixed
name: on input `". .env"` it returns `".env"`, a hidden file. -/
theorem sanitize_hidden_file :
    sanitize (". .env").data = ".env".data ∧
    (sanitize (". .env").data).head? = some '.' := by decide

/-- The `transfers` table used by the C9 witness: one row for tid `t1`. -/
def dbW : Str → Option VRow := fun t =>
  if t = "t1".data then
    some { save_path := some "p1".data, sha256 := some "d1".data }
  else none

/-- The filesystem used by the C9 witness: one file `p1` with two bytes. -/
def fsW : Str → Option (List Nat) := fun p =>
  if p = "p1".data then some [7, 7] else none

/-- The digest used by the C9 witness. -/
def dgW : List Nat → Str := fun _ => "d1".data

/-- Claim C9: `/verify` returns 200 with `ok = true` exactly when the
transfers row exists, its `save_path` names an existing file, its recorded
sha256 is non-empty, and the recorded digest equals the digest recomputed
from the file; it returns 400 for a missing (or empty) tid and 404 when the
row, the stored path, or the file is absent. -/
theorem verify_spec (tid : Option Str) (db : Str → Option VRow)
    (fs : Str → Option (List Nat)) (dg : List Nat → Str) :
    ((∃ d a, verify tid db fs dg = VerifyResult.okResp (some d) a true) ↔
      (∃ t, tid = some t ∧ t ≠ [] ∧ ∃ row, db t = some row ∧
        ∃ p, row.save_path = some p ∧ p ≠ [] ∧ ∃ c, fs p = some c ∧
          row.sha256 = some (dg c) ∧ dg c ≠ [])) ∧
    (tid = none → statusCode (verify tid db fs dg) = 400) ∧
    (∀ t, tid = some t → t ≠ [] → db t = none →
      statusCode (verify tid db fs dg) = 404) ∧
    (∀ t row, tid = some t → t ≠ [] → db t = some row → row.save_path = none →
      statusCode (verify tid db fs dg) = 404) ∧
    (∀ t row p, tid = some t → t ≠ [] → db t = some row → row.save_path = some p →
      p ≠ [] → fs p = none → statusCode (verify tid db fs dg) = 404) := by
  refine ⟨⟨?_, ?_⟩, ?_, ?_, ?_, ?_⟩
  · rintro ⟨d, a, h⟩
    cases tid with
    | none => simp [verify] at h
    | some t =>
      by_cases ht : t = []
      · simp [verify, ht] at h
      · cases hdb : db t with
        | none => simp [verify, ht, hdb] at h
        | some row =>
          cases hsp : row.save_path with
          | none => simp [verify, ht, hdb, hsp] at h
          | some p =>
            by_cases hp : p = []
            · simp [verify, ht, hdb, hsp, hp] at h
            · cases hfs : fs p with
              | none => simp [verify, ht, hdb, hsp, hp, hfs] at h
              | some c =>
                simp [verify, ht, hdb, hsp, hp, hfs] at h
                obtain ⟨h1, h2, h3⟩ := h
                rw [h1] at h3
                by_cases hd : d = []
                · simp [hd] at h3
                · simp [hd] at h3
                  exact ⟨t, rfl, ht, row, hdb, p, hsp, hp, c, hfs,
                    by rw [h1, h3], by rw [← h3]; exact hd⟩
  · rintro ⟨t, rfl, ht, row, hdb, p, hsp, hp, c, hfs, hsha, hne⟩
    exact ⟨dg c, dg c, by simp [verify, ht, hdb, hsp, hp, hfs, hsha, hne]⟩
  · rintro rfl
    simp [verify, statusCode]
  · rintro t rfl ht hdb
    simp [verify, statusCode, ht, hdb]
  · rintro t row rfl ht hdb hsp
    simp [verify, statusCode, ht, hdb, hsp]
  · rintro t row p rfl ht hdb hsp hp hfs
    simp [verify, statusCode, ht, hdb, hsp, hp, hfs]

/-- Witness for C9: the 400 and 404 branches at a concrete table. -/
theorem verify_spec_witness :
    statusCode (verify none dbW fsW dgW) = 400 ∧
    statusCode (verify (some "zz".data) dbW fsW dgW) = 404 :=
  ⟨(verify_spec none dbW fsW dgW).2.1 rfl,
   (verify_spec (some "zz".data) dbW fsW dgW).2.2.1 "zz".data rfl
     (by decide) (by decide)⟩

end QS
